import Mathlib

/-!
Verification of the swipe-news trading service (src/server/trading-service).

Shallow embedding of the pure decision logic of `trader_privy.py`,
`privy_signer.py` and `main.py`:

* `to_hex` — the hex/numeric field encoder (trader_privy.py lines 218-234,
  privy_signer.py lines 135-147; the two copies agree on the None / str / int
  domain modelled here; the float branch of the first copy is floating point
  and is outside the modelled domain).
* `gas_pricing` — the EIP-1559 / legacy gas-field selection
  (trader_privy.py lines 268-281).
* `next_slot` — the trade-slot allocator (trader_privy.py lines 168-177,
  duplicated at main.py lines 301-310).
* `build_trade_input` — take-profit price computation and TradeInput
  assembly (trader_privy.py lines 162-191).
* `parse_direction` — the direction-string parse expression
  (main.py lines 173, 298, 323).
* `formatTradeFull` / `get_trades_lists` — the per-record trade
  normalizer of the get-trades handler (main.py lines 465-787), over a
  record type whose `Option` fields are the values of each attribute
  after all extraction attempts (absent-or-None collapsed to `none`, as
  the code's `hasattr ... and getattr(...) is not None` guards do),
  together with the raw `pair_index` attribute that line 730 rebinds the
  loop variable to when the per-record market-status request succeeds.
  `formatTrade` is the rebinding-free (fetch-failure) case.  Timestamp
  fields and the network data of the pair-name / market-open lookups are
  not modelled.
* `execute_signed_transaction` / `open_position` — the execution pipeline
  (trader_privy.py lines 293-343, 345-471) with external calls abstracted
  as `Except`-valued oracles; an escaping Python exception is the outer
  `Except.error`.
* `execute_trade_cache` — the trader-cache update behaviour of the
  execute-trade handler (main.py lines 247-378, 219-236).
-/

/-- Python value restricted to the domain the encoder claims range over:
`None`, a string, or an int. -/
inductive PyValue where
  | none : PyValue
  | str : String → PyValue
  | int : Int → PyValue
deriving DecidableEq, Repr

/-- Python `value.startswith('0x')` on a string. -/
def pyStartsWith0x (s : String) : Bool :=
  match s.data with
  | '0' :: 'x' :: _ => true
  | _ => false

/-- Numeric value of a list of decimal digit characters. -/
def decDigitsVal (l : List Char) : Nat :=
  l.foldl (fun acc c => 10 * acc + (c.toNat - '0'.toNat)) 0

/-- Parse a nonempty all-digit character list as a natural number,
`Option.none` otherwise. -/
def parseDecDigits (l : List Char) : Option Nat :=
  if l ≠ [] ∧ l.all Char.isDigit then some (decDigitsVal l) else none

/-- Python `int(value)` on a string, restricted to the core grammar
(optional sign followed by decimal digits; surrounding whitespace and
underscore grouping are not modelled). `Option.none` models the
`ValueError` that the encoder's `except` swallows. -/
def parsePyInt (s : String) : Option Int :=
  match s.data with
  | '-' :: rest => (parseDecDigits rest).map (fun n => -(n : Int))
  | '+' :: rest => (parseDecDigits rest).map (fun n => (n : Int))
  | l => (parseDecDigits l).map (fun n => (n : Int))

/-- Python `hex(n)`: minimal lowercase hex digits prefixed `0x`, with a
leading `-` for negative input. -/
def pyHex (n : Int) : String :=
  if n < 0 then ⟨'-' :: '0' :: 'x' :: Nat.toDigits 16 (-n).toNat⟩
  else ⟨'0' :: 'x' :: Nat.toDigits 16 n.toNat⟩

/-- The field encoder `to_hex` (trader_privy.py lines 218-234,
privy_signer.py lines 135-147): `None` maps to `None`; a string already
prefixed `0x` is returned unchanged; otherwise a string is parsed as an
integer and re-encoded via `hex`, or returned unchanged when unparseable;
an int is encoded via `hex`.  (The `int(value, 16)` arm of the first copy
is unreachable: it is guarded by `value.startswith('0x')`, which already
returned.) -/
def to_hex (v : PyValue) : PyValue :=
  match v with
  | .none => .none
  | .str s =>
      if pyStartsWith0x s then .str s
      else
        match parsePyInt s with
        | some n => .str (pyHex n)
        | Option.none => .str s
  | .int n => .str (pyHex n)

/-- Python truthiness on the modelled value domain: `None`, the empty
string and `0` are falsy. -/
def truthy (v : PyValue) : Bool :=
  match v with
  | .none => false
  | .str s => !s.isEmpty
  | .int n => n != 0

/-- Gas-pricing normalization (trader_privy.py lines 268-281): the entries
the builder writes into `eip1559_tx` for `maxFeePerGas`,
`maxPriorityFeePerGas` and `gasPrice`, given the raw transaction's values
for those fields (`PyValue.none` when the raw transaction lacks the
field, matching `tx_dict.get(...) or getattr(..., None)`).  Returns the
three optional entries in that order. -/
def gas_pricing (max_fee_per_gas max_priority_fee_per_gas gas_price : PyValue) :
    Option PyValue × Option PyValue × Option PyValue :=
  if truthy max_fee_per_gas || truthy max_priority_fee_per_gas then
    ((if truthy max_fee_per_gas then some (to_hex max_fee_per_gas) else Option.none),
     (if truthy max_priority_fee_per_gas then some (to_hex max_priority_fee_per_gas)
      else Option.none),
     Option.none)
  else
    (Option.none, Option.none,
     if truthy gas_price then some (to_hex gas_price) else Option.none)

/-- Position direction (trader_privy.py lines 37-40); `value` is the
enum's boolean payload (`LONG = True`, `SHORT = False`). -/
inductive PositionSide where
  | LONG : PositionSide
  | SHORT : PositionSide
deriving DecidableEq, Repr

/-- Boolean payload of the `PositionSide` enum member. -/
def PositionSide.value : PositionSide → Bool
  | .LONG => true
  | .SHORT => false

/-- Inner trade record of a position returned by the chain query; only the
two fields the slot allocator reads. -/
structure TradeData where
  pair_index : Nat
  trade_index : Nat
deriving DecidableEq, Repr

/-- Wrapper object in the positions list: the allocator reads
`t.trade.pair_index` and `t.trade.trade_index`. -/
structure ExtendedTrade where
  trade : TradeData
deriving DecidableEq, Repr

/-- Slot allocator (trader_privy.py lines 168-177; the same code is
duplicated at main.py lines 301-310): filter the existing positions to
the given pair index; 0 when none match, else
`max(t.trade.trade_index for t in matches) + 1`. -/
def next_slot (existing_positions : List ExtendedTrade) (pair_index : Nat) : Nat :=
  let pair_positions := existing_positions.filter
    (fun t => t.trade.pair_index == pair_index)
  match pair_positions.map (fun t => t.trade.trade_index) with
  | [] => 0
  | x :: xs => xs.foldl max x + 1

/-- Protocol-level trade descriptor (the `TradeInput` the builder fills at
trader_privy.py lines 180-191; `open_price=None` and `timestamp=0` are
constants not modelled). -/
structure TradeInput where
  trader : String
  pair_index : Nat
  collateral_in_trade : ℚ
  is_long : Bool
  leverage : Int
  index : Nat
  tp : ℚ
  sl : ℚ
deriving Repr

/-- Pure core of `build_unsigned_transaction` / `open_position`
(trader_privy.py lines 162-191 and 379-408): given the results of the
three concurrent reads (pair index, current price, existing positions),
compute the take-profit price and next slot and assemble the
`TradeInput`. -/
def build_trade_input (wallet : String) (pair_index : Nat) (current_price : ℚ)
    (existing_positions : List ExtendedTrade) (side : PositionSide)
    (collateral : ℚ) (leverage : Int) (take_profit_percent : ℚ) : TradeInput :=
  let take_profit :=
    if side = PositionSide.LONG then current_price * (1 + take_profit_percent / 100)
    else current_price * (1 - take_profit_percent / 100)
  { trader := wallet
    pair_index := pair_index
    collateral_in_trade := collateral
    is_long := side.value
    leverage := leverage
    index := next_slot existing_positions pair_index
    tp := take_profit
    sl := 0 }

/-- Direction parsing expression
`PositionSide.LONG if request.direction == 'long' else PositionSide.SHORT`,
written identically at main.py lines 173, 298 and 323. -/
def parse_direction (direction : String) : PositionSide :=
  if direction == "long" then PositionSide.LONG else PositionSide.SHORT

/-- Python value of a raw index attribute as stored on the trade object:
an int, or a value (modelled by its string form) that `int(...)` may
reject. -/
inductive IdxVal where
  | int : Int → IdxVal
  | str : String → IdxVal
deriving DecidableEq, Repr

/-- Raw trade record as seen by the get-trades normalizer (main.py lines
465-776).  Each field holds the value of the corresponding attribute after
all of the code's extraction attempts (direct getattr, `__dict__`,
camelCase, dict access, and the `int(...)` conversion for the two
indices); `none` means the attribute was absent, `None`, or — for the
indices — not convertible to int.  `pair_index_attr` is additionally the
raw snake_case `pair_index` attribute itself, exactly what
`getattr(trade, 'pair_index', None)` returns (main.py lines 516 and 730);
in the program it is the first extraction attempt, so when it holds an
int-convertible value, `pair_index` is that value's conversion, and
`pair_index` can differ from it only by being resolved through the
fallback names (attr `none`) or by a failed conversion (attr
non-convertible).  For `is_closed` the code tests bare `hasattr`, so
`none` means the attribute is absent and `some b` its boolean value.
Timestamp fields and the pair-name / market-open lookups' network data
are not modelled. -/
structure RawTrade where
  pair_index : Option Nat := Option.none
  trade_index : Option Nat := Option.none
  pair_index_attr : Option IdxVal := Option.none
  is_long : Option Bool := Option.none
  open_collateral : Option ℚ := Option.none
  collateral_in_trade : Option ℚ := Option.none
  leverage : Option Int := Option.none
  open_price : Option ℚ := Option.none
  close_price : Option ℚ := Option.none
  exit_price : Option ℚ := Option.none
  is_closed : Option Bool := Option.none
  status : Option String := Option.none
  tp : Option ℚ := Option.none
  sl : Option ℚ := Option.none
deriving Repr

/-- Closed-status inference chain (main.py lines 610-638): the
`(is_closed, exit_price)` pair after the if/elif chain.  Priority:
`close_price` attribute, then `exit_price` attribute, then the
`is_closed` boolean, then the lowercased `status` string against
closed/liquidated/settled, then zero `collateral_in_trade`, then zero
`open_collateral`, defaulting to open. -/
def infer_closed (t : RawTrade) : Bool × Option ℚ :=
  match t.close_price with
  | some cp => (true, some cp)
  | Option.none =>
    match t.exit_price with
    | some ep => (true, some ep)
    | Option.none =>
      match t.is_closed with
      | some b => (b, Option.none)
      | Option.none =>
        match t.status with
        | some s =>
            (["closed", "liquidated", "settled"].contains s.toLower, Option.none)
        | Option.none =>
          if t.collateral_in_trade = some 0 then (true, Option.none)
          else if t.open_collateral = some 0 then (true, Option.none)
          else (false, Option.none)

/-- P&L computation (main.py lines 690-716): starting from the zero
defaults, the code computes realized P&L only in the branch
`elif is_closed and exit_price and entry_price > 0` (the preceding
`if not is_closed and entry_price > 0` branch is a `pass`). -/
def pnl_calc (isClosed : Bool) (exitPrice : Option ℚ) (entry_price : ℚ)
    (open_collateral : ℚ) (leverage : Int) (is_long : Bool) : ℚ × ℚ :=
  match exitPrice with
  | some e =>
      if isClosed ∧ e ≠ 0 ∧ entry_price > 0 then
        let price_change :=
          if is_long then (e - entry_price) / entry_price
          else (entry_price - e) / entry_price
        (open_collateral * (leverage : ℚ) * price_change,
         price_change * (leverage : ℚ) * 100)
      else (0, 0)
  | Option.none => (0, 0)

/-- Formatted trade record appended to `formatted_trades`
(main.py lines 757-776; `pair_name`, timestamps and `market_is_open` are
not modelled). -/
structure FormattedTrade where
  pair_index : Nat
  trade_index : Nat
  direction : String
  collateral : ℚ
  leverage : Int
  entry_price : ℚ
  exit_price : Option ℚ
  take_profit : Option ℚ
  stop_loss : Option ℚ
  status : String
  pnl : ℚ
  pnl_percent : ℚ
deriving Repr

/-- Per-record body of the get-trades formatting loop (main.py lines
465-776) in the case where the market-status request does not reach
line 730 (non-200 response or exception), so the `pair_index` loop
variable still holds the extracted, int-converted value at the skip
check (lines 747-749): closed-status inference, entry price
(truthiness-checked `open_price`, default 0), P&L, and the skip when
either index is unresolved (`Option.none`).  The general body, including
the line-730 rebinding of `pair_index` to the raw attribute when the
fetch succeeds, is `formatTradeFull`; `formatTradeFull_false_eq` proves
this function is exactly its fetch-failure case. -/
def formatTrade (t : RawTrade) : Option FormattedTrade :=
  match t.pair_index, t.trade_index with
  | some pi, some ti =>
    let inferred := infer_closed t
    let isClosed := inferred.1
    let exitPrice := inferred.2
    let entry_price := t.open_price.getD 0
    let open_collateral := t.open_collateral.getD 0
    let leverage := t.leverage.getD 75
    let is_long := t.is_long.getD true
    let pnl := pnl_calc isClosed exitPrice entry_price open_collateral leverage is_long
    some
      { pair_index := pi
        trade_index := ti
        direction := if is_long then "long" else "short"
        collateral := t.open_collateral.getD (t.collateral_in_trade.getD 0)
        leverage := leverage
        entry_price := entry_price
        exit_price := exitPrice
        take_profit := match t.tp with
          | some v => if v = 0 then Option.none else some v
          | Option.none => Option.none
        stop_loss := match t.sl with
          | some v => if v = 0 then Option.none else some v
          | Option.none => Option.none
        status := if isClosed then "closed" else "active"
        pnl := pnl.1
        pnl_percent := pnl.2 }
  | _, _ => Option.none

/-- Formatted trade record as the program actually appends it (main.py
lines 757-776): identical to `FormattedTrade` except that the
`pair_index` entry is whatever the loop variable holds at line 758 —
after a successful market-status fetch that is the raw attribute value,
which need not be an int. -/
structure FormattedTradeRaw where
  pair_index : IdxVal
  trade_index : Nat
  direction : String
  collateral : ℚ
  leverage : Int
  entry_price : ℚ
  exit_price : Option ℚ
  take_profit : Option ℚ
  stop_loss : Option ℚ
  status : String
  pnl : ℚ
  pnl_percent : ℚ
deriving DecidableEq, Repr

/-- Full per-record body of the get-trades formatting loop (main.py lines
465-776), including the market-status block: `fetch_ok` is whether the
market-status request returned HTTP 200 and parsed, reaching line 730,
which REBINDS the loop variable `pair_index` to the raw attribute
`getattr(trade, 'pair_index', None)` — discarding the extracted,
int-converted value — before the skip check at lines 747-749.
`trade_index` is never rebound.  The appended record carries the binding
current at line 758. -/
def formatTradeFull (fetch_ok : Bool) (t : RawTrade) : Option FormattedTradeRaw :=
  let pair_index_binding : Option IdxVal :=
    if fetch_ok then t.pair_index_attr
    else t.pair_index.map (fun n => IdxVal.int (n : Int))
  match pair_index_binding, t.trade_index with
  | some pv, some ti =>
    let inferred := infer_closed t
    let isClosed := inferred.1
    let exitPrice := inferred.2
    let entry_price := t.open_price.getD 0
    let open_collateral := t.open_collateral.getD 0
    let leverage := t.leverage.getD 75
    let is_long := t.is_long.getD true
    let pnl := pnl_calc isClosed exitPrice entry_price open_collateral leverage is_long
    some
      { pair_index := pv
        trade_index := ti
        direction := if is_long then "long" else "short"
        collateral := t.open_collateral.getD (t.collateral_in_trade.getD 0)
        leverage := leverage
        entry_price := entry_price
        exit_price := exitPrice
        take_profit := match t.tp with
          | some v => if v = 0 then Option.none else some v
          | Option.none => Option.none
        stop_loss := match t.sl with
          | some v => if v = 0 then Option.none else some v
          | Option.none => Option.none
        status := if isClosed then "closed" else "active"
        pnl := pnl.1
        pnl_percent := pnl.2 }
  | _, _ => Option.none

/-- The three lists the get-trades handler returns (main.py lines
784-835): all formatted trades, the active ones, and the closed ones.
Each raw record is paired with the outcome of its own market-status
request (main.py lines 721-727 run once per loop iteration), which
decides whether the line-730 rebinding occurs for that record. -/
def get_trades_lists (raw : List (RawTrade × Bool)) :
    List FormattedTradeRaw × List FormattedTradeRaw × List FormattedTradeRaw :=
  let formatted_trades := raw.filterMap (fun p => formatTradeFull p.2 p.1)
  (formatted_trades,
   formatted_trades.filter (fun t => t.status == "active"),
   formatted_trades.filter (fun t => t.status == "closed"))

/-- Result record of a trade operation (trader_privy.py lines 43-53). -/
structure TradeResult where
  success : Bool
  tx_hash : Option String := Option.none
  message : String := ""
  error : Option String := Option.none
  entry_price : Option ℚ := Option.none
  pair_index : Option Nat := Option.none
  trade_index : Option Nat := Option.none
deriving DecidableEq, Repr

/-- Message of the RuntimeError raised by `_ensure_initialized`
(trader_privy.py lines 107-110). -/
def notInitializedMsg : String :=
  "Trader not initialized. Call await trader.initialize() first."

/-- Execution of a pre-signed transaction (trader_privy.py lines
293-343).  `send_result` abstracts `client.send_transaction` (ok: the
receipt's transaction hash; error: the exception message).  The outer
`Except.error` models a Python exception escaping to the caller:
`_ensure_initialized` runs before the try block, so its RuntimeError
propagates; everything inside the try is converted to a failed
`TradeResult`. -/
def execute_signed_transaction (initialized : Bool)
    (send_result : Except String String) (pair_index trade_index : Nat)
    (entry_price : ℚ) : Except String TradeResult :=
  if ¬ initialized then Except.error notInitializedMsg
  else Except.ok <|
    match send_result with
    | .ok h =>
        { success := true
          tx_hash := some h
          entry_price := some entry_price
          pair_index := some pair_index
          trade_index := some trade_index
          message := "Position opened successfully" }
    | .error e => { success := false, error := some e }

/-- External collaborators of `open_position`, each abstracted as an
already-determined outcome: the three gathered reads, the SDK trade
builder, the Privy signer, and chain submission.  An `Except.error`
carries the exception message `str(e)`. -/
structure OpenOracles where
  gather : Except String (Nat × ℚ × List ExtendedTrade)
  build_tx : TradeInput → Except String Unit
  sign : Except String String
  send : Except String String

/-- Body of the try block of `open_position` (trader_privy.py lines
370-464): gather the three reads, assemble the `TradeInput`, build, sign
and submit, producing the success `TradeResult`. -/
def open_position_body (o : OpenOracles) (wallet : String) (side : PositionSide)
    (collateral : ℚ) (leverage : Int) (take_profit_percent : ℚ) :
    Except String TradeResult := do
  let (pair_index, current_price, existing_positions) ← o.gather
  let trade_input := build_trade_input wallet pair_index current_price
    existing_positions side collateral leverage take_profit_percent
  let _ ← o.build_tx trade_input
  let _ ← o.sign
  let h ← o.send
  pure
    { success := true
      tx_hash := some h
      entry_price := some current_price
      pair_index := some pair_index
      trade_index := some trade_input.index
      message := "Opened position" }

/-- The `open_position` entry point (trader_privy.py lines 345-471):
`_ensure_initialized` runs before the try block, so an uninitialized
trader raises (outer `Except.error`); any exception inside the try is
converted to `TradeResult(success=False, error=str(e))`. -/
def open_position (initialized : Bool) (o : OpenOracles) (wallet : String)
    (side : PositionSide) (collateral : ℚ) (leverage : Int)
    (take_profit_percent : ℚ) : Except String TradeResult :=
  if ¬ initialized then Except.error notInitializedMsg
  else Except.ok <|
    match open_position_body o wallet side collateral leverage take_profit_percent with
    | .ok r => r
    | .error e => { success := false, error := some e }

/-- Cache key of the process-wide trader cache: (privy_user_id,
wallet_address) (main.py lines 216-223). -/
abbrev CacheKey := String × String

/-- Outcome of the execute-trade handler body after the trader has been
fetched or created: either the trader returned a `TradeResult`, or some
step raised a (non-HTTPException) exception with the given message. -/
inductive ExecOutcome where
  | result : TradeResult → ExecOutcome
  | exception : String → ExecOutcome

/-- HTTP error response raised by the handler (`HTTPException`). -/
structure HTTPError where
  status_code : Nat
  detail : String
deriving DecidableEq, Repr

/-- Detail string of the HTTP 400 raised for a failed `TradeResult`
(main.py line 347: `result.error or "Trade execution failed"`). -/
def failDetail (r : TradeResult) : String :=
  match r.error with
  | some e => if e = "" then "Trade execution failed" else e
  | Option.none => "Trade execution failed"

/-- Cache behaviour of the execute-trade handler (main.py lines 247-378
with `get_or_create_trader`, lines 221-236): the key is inserted by
`get_or_create_trader` if absent; a successful `TradeResult` returns the
success response; an unsuccessful one raises HTTPException 400, which the
`except HTTPException: raise` clause re-raises WITHOUT touching the
cache; only the `except Exception` clause (lines 363-377) evicts the key
before raising HTTPException 500.  Returns the response and the final
cache contents. -/
def execute_trade_cache (cache : List CacheKey) (key : CacheKey)
    (outcome : ExecOutcome) : Except HTTPError String × List CacheKey :=
  let cache1 := if key ∈ cache then cache else key :: cache
  match outcome with
  | .result r =>
      if r.success then (Except.ok r.message, cache1)
      else
        (Except.error
          { status_code := 400
            detail := match r.error with
              | some e => if e = "" then "Trade execution failed" else e
              | Option.none => "Trade execution failed" },
         cache1)
  | .exception e =>
      (Except.error { status_code := 500, detail := e },
       cache1.filter (fun k => k ≠ key))

/-! ## Helper lemmas -/

lemma foldl_max_init_le (l : List Nat) (a : Nat) : a ≤ l.foldl max a := by
  induction l generalizing a with
  | nil => exact le_refl a
  | cons x xs ih => exact le_trans (le_max_left a x) (ih (max a x))

lemma foldl_max_le_of_mem (l : List Nat) (a : Nat) :
    ∀ x ∈ l, x ≤ l.foldl max a := by
  induction l generalizing a with
  | nil => intro x hx; cases hx
  | cons y ys ih =>
    intro x hx
    rcases List.mem_cons.mp hx with h | h
    · subst h
      exact le_trans (le_max_right a x) (foldl_max_init_le ys (max a x))
    · exact ih (max a y) x h

lemma foldl_max_mem (l : List Nat) (a : Nat) :
    l.foldl max a = a ∨ l.foldl max a ∈ l := by
  induction l generalizing a with
  | nil => left; rfl
  | cons y ys ih =>
    rw [List.foldl_cons]
    rcases ih (max a y) with h | h
    · rw [h]
      rcases max_choice a y with h2 | h2
      · left; exact h2
      · right; rw [h2]; exact List.mem_cons_self y ys
    · right; exact List.mem_cons_of_mem y h

/-! ## Claim theorems -/

/-- C1: for every set of existing positions and every pair index, `next_slot`
returns 0 when no existing position has that pair index, is strictly greater
than every matching position's trade index, equals some matching trade index
plus 1 when matches exist (hence is `1 + max`), and never collides with a
slot index already present among the matching positions. -/
theorem next_slot_correct (existing_positions : List ExtendedTrade) (pair_index : Nat) :
    (existing_positions.filter (fun t => t.trade.pair_index == pair_index) = [] →
      next_slot existing_positions pair_index = 0) ∧
    (∀ t ∈ existing_positions.filter (fun t => t.trade.pair_index == pair_index),
      t.trade.trade_index < next_slot existing_positions pair_index) ∧
    (existing_positions.filter (fun t => t.trade.pair_index == pair_index) ≠ [] →
      ∃ t ∈ existing_positions.filter (fun t => t.trade.pair_index == pair_index),
        next_slot existing_positions pair_index = t.trade.trade_index + 1) ∧
    (∀ t ∈ existing_positions.filter (fun t => t.trade.pair_index == pair_index),
      next_slot existing_positions pair_index ≠ t.trade.trade_index) := by
  have hns : next_slot existing_positions pair_index =
      match (existing_positions.filter (fun t => t.trade.pair_index == pair_index)).map
          (fun t => t.trade.trade_index) with
      | [] => 0
      | x :: xs => xs.foldl max x + 1 := rfl
  cases hm : (existing_positions.filter (fun t => t.trade.pair_index == pair_index)).map
      (fun t => t.trade.trade_index) with
  | nil =>
    rw [hm] at hns
    have hempty : existing_positions.filter (fun t => t.trade.pair_index == pair_index) = [] :=
      List.map_eq_nil_iff.mp hm
    refine ⟨fun _ => hns, ?_, ?_, ?_⟩
    · intro t ht; rw [hempty] at ht; cases ht
    · intro hne; exact absurd hempty hne
    · intro t ht; rw [hempty] at ht; cases ht
  | cons x xs =>
    rw [hm] at hns
    have hns2 : next_slot existing_positions pair_index = xs.foldl max x + 1 := hns
    have hgt : ∀ v ∈ x :: xs, v < next_slot existing_positions pair_index := by
      intro v hv
      rw [hns2]
      rcases List.mem_cons.mp hv with h | h
      · subst h; exact Nat.lt_succ_of_le (foldl_max_init_le xs v)
      · exact Nat.lt_succ_of_le (foldl_max_le_of_mem xs x v h)
    have hmem : ∃ v ∈ x :: xs, next_slot existing_positions pair_index = v + 1 := by
      rcases foldl_max_mem xs x with h | h
      · exact ⟨x, List.mem_cons_self x xs, by rw [hns2, h]⟩
      · exact ⟨xs.foldl max x, List.mem_cons_of_mem x h, by rw [hns2]⟩
    refine ⟨?_, ?_, ?_, ?_⟩
    · intro hempty
      rw [hempty] at hm
      cases hm
    · intro t ht
      exact hgt _ (hm ▸ List.mem_map_of_mem _ ht)
    · intro _
      obtain ⟨v, hv, hveq⟩ := hmem
      rw [← hm] at hv
      obtain ⟨t, ht, hft⟩ := List.mem_map.mp hv
      refine ⟨t, ht, ?_⟩
      rw [hft]
      exact hveq
    · intro t ht
      exact ne_of_gt (hgt _ (hm ▸ List.mem_map_of_mem _ ht))

/-- C1 witness: the allocator on concrete inputs — empty set gives slot 0;
with positions (pair 1, slots 0 and 2) and (pair 2, slot 5), pair 1 gets a
slot equal to some matching slot plus one, and not colliding with slot 2. -/
theorem next_slot_correct_witness :
    next_slot [] 1 = 0 ∧
    (∃ t ∈ ([⟨⟨1, 0⟩⟩, ⟨⟨1, 2⟩⟩, ⟨⟨2, 5⟩⟩] : List ExtendedTrade).filter
        (fun t => t.trade.pair_index == 1),
      next_slot [⟨⟨1, 0⟩⟩, ⟨⟨1, 2⟩⟩, ⟨⟨2, 5⟩⟩] 1 = t.trade.trade_index + 1) ∧
    next_slot [⟨⟨1, 0⟩⟩, ⟨⟨1, 2⟩⟩, ⟨⟨2, 5⟩⟩] 1 ≠
      (⟨⟨1, 2⟩⟩ : ExtendedTrade).trade.trade_index :=
  ⟨(next_slot_correct [] 1).1 (by decide),
   (next_slot_correct [⟨⟨1, 0⟩⟩, ⟨⟨1, 2⟩⟩, ⟨⟨2, 5⟩⟩] 1).2.2.1 (by decide),
   (next_slot_correct [⟨⟨1, 0⟩⟩, ⟨⟨1, 2⟩⟩, ⟨⟨2, 5⟩⟩] 1).2.2.2 ⟨⟨1, 2⟩⟩ (by decide)⟩

lemma to_hex_pyHex (n : Int) : to_hex (PyValue.str (pyHex n)) = PyValue.str (pyHex n) := by
  rcases lt_or_le n 0 with h | h
  · have hx : pyHex n = ⟨'-' :: '0' :: 'x' :: Nat.toDigits 16 (-n).toNat⟩ := by
      unfold pyHex; rw [if_pos h]
    have hall : ('0' :: 'x' :: Nat.toDigits 16 (-n).toNat).all Char.isDigit = false := by
      rw [List.all_cons, List.all_cons]
      simp [show Char.isDigit 'x' = false from rfl]
    have hpd : parseDecDigits ('0' :: 'x' :: Nat.toDigits 16 (-n).toNat) = Option.none := by
      have hnc : ¬ (('0' :: 'x' :: Nat.toDigits 16 (-n).toNat) ≠ [] ∧
          ('0' :: 'x' :: Nat.toDigits 16 (-n).toNat).all Char.isDigit = true) := by
        intro hcon
        rw [hall] at hcon
        exact Bool.false_ne_true hcon.2
      unfold parseDecDigits
      rw [if_neg hnc]
    have hparse : parsePyInt ⟨'-' :: '0' :: 'x' :: Nat.toDigits 16 (-n).toNat⟩
        = (parseDecDigits ('0' :: 'x' :: Nat.toDigits 16 (-n).toNat)).map
            (fun m => -(m : Int)) := rfl
    rw [hpd] at hparse
    have hsw : pyStartsWith0x ⟨'-' :: '0' :: 'x' :: Nat.toDigits 16 (-n).toNat⟩
        = false := rfl
    rw [hx]
    simp [to_hex, hsw, hparse]
  · have hx : pyHex n = ⟨'0' :: 'x' :: Nat.toDigits 16 n.toNat⟩ := by
      unfold pyHex; rw [if_neg (not_lt.mpr h)]
    rw [hx]
    simp [to_hex,
      show pyStartsWith0x ⟨'0' :: 'x' :: Nat.toDigits 16 n.toNat⟩ = true from rfl]

lemma to_hex_idem (v : PyValue) : to_hex (to_hex v) = to_hex v := by
  match v with
  | .none => rfl
  | .int n => exact to_hex_pyHex n
  | .str s =>
    by_cases hsw : pyStartsWith0x s = true
    · have h1 : to_hex (PyValue.str s) = PyValue.str s := by simp [to_hex, hsw]
      rw [h1, h1]
    · have hswf : pyStartsWith0x s = false := Bool.eq_false_iff.mpr hsw
      cases hp : parsePyInt s with
      | none =>
        have h1 : to_hex (PyValue.str s) = PyValue.str s := by
          simp [to_hex, hswf, hp]
        rw [h1, h1]
      | some n =>
        have h1 : to_hex (PyValue.str s) = PyValue.str (pyHex n) := by
          simp [to_hex, hswf, hp]
        rw [h1]
        exact to_hex_pyHex n

/-- C3: the field encoder `to_hex` is total on its value domain (always
returns `None` or a string, never raises), maps `None` to `None`, encodes
`255` as `"0xff"` (also from the numeric string `"255"`), passes a string
already prefixed `"0x"` through unchanged, re-encodes a parseable numeric
string as a minimal hex integer, returns an unparseable string unchanged,
and is idempotent on every input. -/
theorem to_hex_correct :
    (∀ v, to_hex (to_hex v) = to_hex v) ∧
    to_hex PyValue.none = PyValue.none ∧
    to_hex (PyValue.int 255) = PyValue.str "0xff" ∧
    to_hex (PyValue.str "255") = PyValue.str "0xff" ∧
    (∀ s, pyStartsWith0x s = true → to_hex (PyValue.str s) = PyValue.str s) ∧
    (∀ s n, pyStartsWith0x s = false → parsePyInt s = some n →
      to_hex (PyValue.str s) = PyValue.str (pyHex n)) ∧
    (∀ s, parsePyInt s = Option.none → to_hex (PyValue.str s) = PyValue.str s) ∧
    (∀ v, to_hex v = PyValue.none ∨ ∃ s, to_hex v = PyValue.str s) := by
  refine ⟨to_hex_idem, rfl, by decide, by decide, ?_, ?_, ?_, ?_⟩
  · intro s h; simp [to_hex, h]
  · intro s n hsw hp; simp [to_hex, hsw, hp]
  · intro s hp
    by_cases hsw : pyStartsWith0x s = true
    · simp [to_hex, hsw]
    · simp [to_hex, Bool.eq_false_iff.mpr hsw, hp]
  · intro v
    match v with
    | .none => exact Or.inl rfl
    | .int n => exact Or.inr ⟨pyHex n, rfl⟩
    | .str s =>
      refine Or.inr ?_
      by_cases hsw : pyStartsWith0x s = true
      · exact ⟨s, by simp [to_hex, hsw]⟩
      · cases hp : parsePyInt s with
        | none => exact ⟨s, by simp [to_hex, Bool.eq_false_iff.mpr hsw, hp]⟩
        | some n => exact ⟨pyHex n, by simp [to_hex, Bool.eq_false_iff.mpr hsw, hp]⟩

/-- C3 witness: the conditional clauses of `to_hex_correct` evaluated on the
concrete inputs "0x10" (already hex), "17" (numeric string) and "hello"
(unparseable). -/
theorem to_hex_correct_witness :
    to_hex (PyValue.str "0x10") = PyValue.str "0x10" ∧
    to_hex (PyValue.str "17") = PyValue.str (pyHex 17) ∧
    to_hex (PyValue.str "hello") = PyValue.str "hello" :=
  ⟨to_hex_correct.2.2.2.2.1 "0x10" (by decide),
   to_hex_correct.2.2.2.2.2.1 "17" 17 (by decide) (by decide),
   to_hex_correct.2.2.2.2.2.2.1 "hello" (by decide)⟩

/-- C2: the trade builder's take-profit price is
`current_price * (1 + tp_pct/100)` for a Long and
`current_price * (1 - tp_pct/100)` for a Short, and at entry price 100 with
tp_pct = 200 a Long gets `tp = 300` while a Short gets `tp = -100` — the
negative value is written into the `TradeInput` unchanged, neither rejected
nor clamped. -/
theorem take_profit_correct :
    (∀ (wallet : String) (pair_index : Nat) (current_price : ℚ)
        (existing : List ExtendedTrade) (collateral : ℚ) (leverage : Int)
        (tp_pct : ℚ),
      (build_trade_input wallet pair_index current_price existing
          PositionSide.LONG collateral leverage tp_pct).tp
        = current_price * (1 + tp_pct / 100) ∧
      (build_trade_input wallet pair_index current_price existing
          PositionSide.SHORT collateral leverage tp_pct).tp
        = current_price * (1 - tp_pct / 100)) ∧
    (build_trade_input "w" 0 100 [] PositionSide.LONG 10 75 200).tp = 300 ∧
    (build_trade_input "w" 0 100 [] PositionSide.SHORT 10 75 200).tp = -100 := by
  refine ⟨fun _ _ _ _ _ _ _ => ⟨rfl, rfl⟩, ?_, ?_⟩
  · rw [show (build_trade_input "w" 0 100 [] PositionSide.LONG 10 75 200).tp
        = (100 : ℚ) * (1 + 200 / 100) from rfl]
    norm_num
  · rw [show (build_trade_input "w" 0 100 [] PositionSide.SHORT 10 75 200).tp
        = (100 : ℚ) * (1 - 200 / 100) from rfl]
    norm_num

/-- C4: the normalized envelope's gas-pricing entries are mutually
exclusive — never both an EIP-1559 field and the legacy `gasPrice`; when
the raw transaction carries a truthy EIP-1559 field, the EIP-1559 fields
are emitted (hex-encoded) and `gasPrice` is omitted; only otherwise is a
truthy `gasPrice` emitted.  Components of the result triple are the
`maxFeePerGas`, `maxPriorityFeePerGas` and `gasPrice` entries in order. -/
theorem gas_pricing_correct :
    (∀ mf mp gp, ¬ ((((gas_pricing mf mp gp).1 ≠ Option.none) ∨
        ((gas_pricing mf mp gp).2.1 ≠ Option.none)) ∧
        ((gas_pricing mf mp gp).2.2 ≠ Option.none))) ∧
    (∀ mf mp gp, truthy mf = true ∨ truthy mp = true →
        (gas_pricing mf mp gp).2.2 = Option.none ∧
        (gas_pricing mf mp gp).1
          = (if truthy mf then some (to_hex mf) else Option.none) ∧
        (gas_pricing mf mp gp).2.1
          = (if truthy mp then some (to_hex mp) else Option.none)) ∧
    (∀ mf mp gp, truthy mf = false → truthy mp = false →
        (gas_pricing mf mp gp).1 = Option.none ∧
        (gas_pricing mf mp gp).2.1 = Option.none ∧
        (gas_pricing mf mp gp).2.2
          = (if truthy gp then some (to_hex gp) else Option.none)) := by
  refine ⟨?_, ?_, ?_⟩
  · intro mf mp gp
    cases h1 : truthy mf <;> cases h2 : truthy mp <;>
      simp [gas_pricing, h1, h2]
  · intro mf mp gp h
    cases h1 : truthy mf with
    | true => simp [gas_pricing, h1]
    | false =>
      cases h2 : truthy mp with
      | true => simp [gas_pricing, h1, h2]
      | false =>
        rw [h1, h2] at h
        rcases h with h | h <;> exact absurd h (by simp)
  · intro mf mp gp h1 h2
    simp [gas_pricing, h1, h2]

/-- C4 witness: with a truthy `maxFeePerGas` of 5 the `gasPrice` entry is
omitted; with a zero (falsy) `maxFeePerGas` and no priority fee, the
legacy `gasPrice` of 7 is emitted. -/
theorem gas_pricing_correct_witness :
    (gas_pricing (PyValue.int 5) PyValue.none (PyValue.int 7)).2.2
      = Option.none ∧
    (gas_pricing (PyValue.int 0) PyValue.none (PyValue.int 7)).2.2
      = (if truthy (PyValue.int 7) then some (to_hex (PyValue.int 7))
         else Option.none) :=
  ⟨(gas_pricing_correct.2.1 (PyValue.int 5) PyValue.none (PyValue.int 7)
      (Or.inl (by decide))).1,
   (gas_pricing_correct.2.2 (PyValue.int 0) PyValue.none (PyValue.int 7)
      (by decide) (by decide)).2.2⟩

/-- C5: the closed-status inference evaluates in exactly the priority
order close/exit price, explicit closed boolean, status string against
the closed/liquidated/settled vocabulary, zero collateral, default open;
in particular a record carrying both a close price and the status string
"open" is classified closed. -/
theorem closed_status_priority :
    (∀ t : RawTrade, ∀ cp, t.close_price = some cp →
        infer_closed t = (true, some cp)) ∧
    (∀ t : RawTrade, ∀ ep, t.close_price = Option.none → t.exit_price = some ep →
        infer_closed t = (true, some ep)) ∧
    (∀ t : RawTrade, ∀ b, t.close_price = Option.none → t.exit_price = Option.none →
        t.is_closed = some b → infer_closed t = (b, Option.none)) ∧
    (∀ t : RawTrade, ∀ s, t.close_price = Option.none → t.exit_price = Option.none →
        t.is_closed = Option.none → t.status = some s →
        infer_closed t
          = (["closed", "liquidated", "settled"].contains s.toLower, Option.none)) ∧
    (∀ t : RawTrade, t.close_price = Option.none → t.exit_price = Option.none →
        t.is_closed = Option.none → t.status = Option.none →
        infer_closed t
          = (if t.collateral_in_trade = some 0 then (true, Option.none)
             else if t.open_collateral = some 0 then (true, Option.none)
             else (false, Option.none))) ∧
    ((formatTrade
        { pair_index := some 0, trade_index := some 0,
          close_price := some 150, status := some "open" }).map
      (fun f => f.status)) = some "closed" := by
  refine ⟨?_, ?_, ?_, ?_, ?_, rfl⟩
  · intro t cp h; simp [infer_closed, h]
  · intro t ep h1 h2; simp [infer_closed, h1, h2]
  · intro t b h1 h2 h3; simp [infer_closed, h1, h2, h3]
  · intro t s h1 h2 h3 h4; simp [infer_closed, h1, h2, h3, h4]
  · intro t h1 h2 h3 h4; simp [infer_closed, h1, h2, h3, h4]

/-- C5 witness: each priority stage of `closed_status_priority` evaluated
on a concrete record exercising exactly that stage. -/
theorem closed_status_priority_witness :
    infer_closed { close_price := some 150 } = (true, some 150) ∧
    infer_closed { exit_price := some 120 } = (true, some 120) ∧
    infer_closed { is_closed := some false } = (false, Option.none) ∧
    infer_closed { status := some "Liquidated" }
      = (["closed", "liquidated", "settled"].contains "Liquidated".toLower,
         Option.none) ∧
    infer_closed { collateral_in_trade := some 0 }
      = (if ({ collateral_in_trade := some 0 } : RawTrade).collateral_in_trade
            = some 0 then (true, Option.none)
         else if ({ collateral_in_trade := some 0 } : RawTrade).open_collateral
            = some 0 then (true, Option.none)
         else (false, Option.none)) :=
  ⟨closed_status_priority.1 _ 150 rfl,
   closed_status_priority.2.1 _ 120 rfl rfl,
   closed_status_priority.2.2.1 _ false rfl rfl rfl,
   closed_status_priority.2.2.2.1 _ "Liquidated" rfl rfl rfl rfl,
   closed_status_priority.2.2.2.2.1 _ rfl rfl rfl rfl⟩

lemma formatTrade_none_of_missing (t : RawTrade)
    (h : t.pair_index = Option.none ∨ t.trade_index = Option.none) :
    formatTrade t = Option.none := by
  rcases h with h | h
  · unfold formatTrade
    rw [h]
  · cases hpi : t.pair_index with
    | none => unfold formatTrade; rw [hpi]
    | some pi => unfold formatTrade; rw [hpi, h]

lemma formatTrade_eq (t : RawTrade) (pi ti : Nat) (hpi : t.pair_index = some pi)
    (hti : t.trade_index = some ti) :
    formatTrade t = some
      { pair_index := pi
        trade_index := ti
        direction := if t.is_long.getD true then "long" else "short"
        collateral := t.open_collateral.getD (t.collateral_in_trade.getD 0)
        leverage := t.leverage.getD 75
        entry_price := t.open_price.getD 0
        exit_price := (infer_closed t).2
        take_profit := match t.tp with
          | some v => if v = 0 then Option.none else some v
          | Option.none => Option.none
        stop_loss := match t.sl with
          | some v => if v = 0 then Option.none else some v
          | Option.none => Option.none
        status := if (infer_closed t).1 then "closed" else "active"
        pnl := (pnl_calc (infer_closed t).1 (infer_closed t).2
          (t.open_price.getD 0) (t.open_collateral.getD 0)
          (t.leverage.getD 75) (t.is_long.getD true)).1
        pnl_percent := (pnl_calc (infer_closed t).1 (infer_closed t).2
          (t.open_price.getD 0) (t.open_collateral.getD 0)
          (t.leverage.getD 75) (t.is_long.getD true)).2 } := by
  unfold formatTrade
  rw [hpi, hti]

lemma pnl_calc_open (e : Option ℚ) (entry oc : ℚ) (lev : Int) (il : Bool) :
    pnl_calc false e entry oc lev il = (0, 0) := by
  cases e with
  | none => rfl
  | some x => simp [pnl_calc]

lemma formatTradeFull_false_eq (t : RawTrade) :
    formatTradeFull false t = (formatTrade t).map (fun f =>
      { pair_index := IdxVal.int (f.pair_index : Int)
        trade_index := f.trade_index
        direction := f.direction
        collateral := f.collateral
        leverage := f.leverage
        entry_price := f.entry_price
        exit_price := f.exit_price
        take_profit := f.take_profit
        stop_loss := f.stop_loss
        status := f.status
        pnl := f.pnl
        pnl_percent := f.pnl_percent }) := by
  cases hpi : t.pair_index with
  | none =>
    cases hti : t.trade_index <;>
      simp [formatTradeFull, formatTrade, hpi, hti]
  | some pi =>
    cases hti : t.trade_index <;>
      simp [formatTradeFull, formatTrade, hpi, hti]

/-- C6: evaluation of the code at the failing input.  Raw trade object:
`pair_index` attribute holds the non-int-convertible string "abc", so
extraction leaves `pair_index` unresolved (`None` after the `int(...)`
failure at main.py lines 577-582); `trade_index` is 3; the record is
normalized while its market-status request returns HTTP 200.  The
line-730 rebinding resurrects the raw attribute into the `pair_index`
loop variable, the skip at line 747 is not taken, and the record IS
appended — landing in the all-trades and active lists with the string as
its pair index — whereas the same record is excluded, as the claim
requires, whenever the rebinding is not reached (fetch failure). -/
theorem drop_rule_code_bug :
    formatTradeFull true
        { pair_index := Option.none, trade_index := some 3,
          pair_index_attr := some (IdxVal.str "abc") }
      = some
        { pair_index := IdxVal.str "abc", trade_index := 3,
          direction := "long", collateral := 0, leverage := 75,
          entry_price := 0, exit_price := Option.none,
          take_profit := Option.none, stop_loss := Option.none,
          status := "active", pnl := 0, pnl_percent := 0 } ∧
    get_trades_lists
        [({ pair_index := Option.none, trade_index := some 3,
            pair_index_attr := some (IdxVal.str "abc") }, true)]
      = ([{ pair_index := IdxVal.str "abc", trade_index := 3,
            direction := "long", collateral := 0, leverage := 75,
            entry_price := 0, exit_price := Option.none,
            take_profit := Option.none, stop_loss := Option.none,
            status := "active", pnl := 0, pnl_percent := 0 }],
         [{ pair_index := IdxVal.str "abc", trade_index := 3,
            direction := "long", collateral := 0, leverage := 75,
            entry_price := 0, exit_price := Option.none,
            take_profit := Option.none, stop_loss := Option.none,
            status := "active", pnl := 0, pnl_percent := 0 }],
         ([] : List FormattedTradeRaw)) ∧
    formatTradeFull false
        { pair_index := Option.none, trade_index := some 3,
          pair_index_attr := some (IdxVal.str "abc") }
      = Option.none :=
  ⟨rfl, rfl, rfl⟩

/-- C7: P&L is zero for every open trade and whenever no exit price is
known; for a closed trade with nonzero exit price and positive entry
price the price change is `(exit-entry)/entry` for a Long and
`(entry-exit)/entry` for a Short, `pnl = collateral * leverage *
price_change` and `pnl_percent = price_change * leverage * 100`; the
concrete closed Long with entry 100, exit 150, leverage 10 and original
collateral 50 yields pnl 250 and pnl_percent 500. -/
theorem pnl_correct :
    (∀ (e : Option ℚ) (entry oc : ℚ) (lev : Int) (il : Bool),
        pnl_calc false e entry oc lev il = (0, 0)) ∧
    (∀ (c : Bool) (entry oc : ℚ) (lev : Int) (il : Bool),
        pnl_calc c Option.none entry oc lev il = (0, 0)) ∧
    (∀ (ex entry oc : ℚ) (lev : Int), ex ≠ 0 → entry > 0 →
        pnl_calc true (some ex) entry oc lev true
          = (oc * (lev : ℚ) * ((ex - entry) / entry),
             (ex - entry) / entry * (lev : ℚ) * 100) ∧
        pnl_calc true (some ex) entry oc lev false
          = (oc * (lev : ℚ) * ((entry - ex) / entry),
             (entry - ex) / entry * (lev : ℚ) * 100)) ∧
    (∀ t : RawTrade, ∀ ft, formatTrade t = some ft → (infer_closed t).1 = false →
        ft.pnl = 0 ∧ ft.pnl_percent = 0) ∧
    ((formatTrade
        { pair_index := some 0, trade_index := some 1, is_long := some true,
          open_collateral := some 50, leverage := some 10,
          open_price := some 100, close_price := some 150 }).map
      (fun f => (f.pnl, f.pnl_percent))) = some (250, 500) := by
  have hc : pnl_calc true (some 150) 100 50 10 true = ((250 : ℚ), (500 : ℚ)) := by
    norm_num [pnl_calc]
  refine ⟨fun e entry oc lev il => pnl_calc_open e entry oc lev il,
    ?_, ?_, ?_, ?_⟩
  · intro c entry oc lev il; cases c <;> rfl
  · intro ex entry oc lev h1 h2
    constructor <;> simp [pnl_calc, h1, h2]
  · intro t ft h hopen
    cases hpi : t.pair_index with
    | none => rw [formatTrade_none_of_missing t (Or.inl hpi)] at h; cases h
    | some pi =>
      cases hti : t.trade_index with
      | none => rw [formatTrade_none_of_missing t (Or.inr hti)] at h; cases h
      | some ti =>
        rw [formatTrade_eq t pi ti hpi hti] at h
        have h3 := Option.some.inj h
        constructor
        · rw [← h3, hopen, pnl_calc_open]
        · rw [← h3, hopen, pnl_calc_open]
  · show some ((pnl_calc true (some 150) 100 50 10 true).1,
        (pnl_calc true (some 150) 100 50 10 true).2)
      = some ((250 : ℚ), (500 : ℚ))
    rw [hc]

/-- C7 witness: the closed-trade formula applied at exit 150, entry 100,
collateral 50, leverage 10 (Long), and the zero-P&L clause applied to a
concrete open record. -/
theorem pnl_correct_witness :
    pnl_calc true (some 150) 100 50 10 true
      = ((50 : ℚ) * ((10 : Int) : ℚ) * ((150 - 100) / 100),
         ((150 : ℚ) - 100) / 100 * ((10 : Int) : ℚ) * 100) ∧
    (({ pair_index := 2, trade_index := 0, direction := "long",
        collateral := 0, leverage := 75, entry_price := 100,
        exit_price := Option.none, take_profit := Option.none,
        stop_loss := Option.none, status := "active", pnl := 0,
        pnl_percent := 0 } : FormattedTrade).pnl = 0 ∧
     ({ pair_index := 2, trade_index := 0, direction := "long",
        collateral := 0, leverage := 75, entry_price := 100,
        exit_price := Option.none, take_profit := Option.none,
        stop_loss := Option.none, status := "active", pnl := 0,
        pnl_percent := 0 } : FormattedTrade).pnl_percent = 0) :=
  ⟨(pnl_correct.2.2.1 150 100 50 10 (by norm_num) (by norm_num)).1,
   pnl_correct.2.2.2.1
     { pair_index := some 2, trade_index := some 0, open_price := some 100 }
     { pair_index := 2, trade_index := 0, direction := "long",
       collateral := 0, leverage := 75, entry_price := 100,
       exit_price := Option.none, take_profit := Option.none,
       stop_loss := Option.none, status := "active", pnl := 0,
       pnl_percent := 0 } rfl rfl⟩

/-- C8 counterexample: with the trader not initialized, both pipeline
entry points let the `_ensure_initialized` RuntimeError propagate to the
caller (outer `Except.error`) instead of returning a `TradeResult` —
the check runs before the try/except boundary (trader_privy.py lines
312-314 and 366-370). -/
theorem exec_boundary_counterexample :
    execute_signed_transaction false (Except.ok "0xabc") 0 0 1
      = Except.error notInitializedMsg ∧
    open_position false
      { gather := Except.ok (0, 100, []), build_tx := fun _ => Except.ok (),
        sign := Except.ok "0xsigned", send := Except.ok "0xhash" }
      "0xwallet" PositionSide.LONG 10 75 200
      = Except.error notInitializedMsg :=
  ⟨rfl, rfl⟩

/-- C8 amended: once the trader is initialized, `execute_signed_transaction`
and `open_position` never let an exception propagate — every outcome of the
abstracted external calls yields `Except.ok` of a `TradeResult`, and any
internal failure is returned as `success = false` with the error message. -/
theorem exec_boundary_amended :
    (∀ (send : Except String String) (pi ti : Nat) (ep : ℚ),
        ∃ r, execute_signed_transaction true send pi ti ep = Except.ok r) ∧
    (∀ (e : String) (pi ti : Nat) (ep : ℚ),
        execute_signed_transaction true (Except.error e) pi ti ep
          = Except.ok { success := false, error := some e }) ∧
    (∀ (h : String) (pi ti : Nat) (ep : ℚ), ∃ r,
        execute_signed_transaction true (Except.ok h) pi ti ep = Except.ok r ∧
        r.success = true) ∧
    (∀ (o : OpenOracles) (wallet : String) (side : PositionSide)
        (collateral : ℚ) (leverage : Int) (tp : ℚ), ∃ r,
        open_position true o wallet side collateral leverage tp = Except.ok r) ∧
    (∀ (o : OpenOracles) (wallet : String) (side : PositionSide)
        (collateral : ℚ) (leverage : Int) (tp : ℚ) (e : String),
        open_position_body o wallet side collateral leverage tp
          = Except.error e →
        open_position true o wallet side collateral leverage tp
          = Except.ok { success := false, error := some e }) := by
  refine ⟨?_, ?_, ?_, ?_, ?_⟩
  · intro send pi ti ep
    cases send with
    | ok h => exact ⟨_, rfl⟩
    | error e => exact ⟨_, rfl⟩
  · intro e pi ti ep; rfl
  · intro h pi ti ep; exact ⟨_, rfl, rfl⟩
  · intro o wallet side collateral leverage tp
    exact ⟨_, rfl⟩
  · intro o wallet side collateral leverage tp e h
    have hbase : open_position true o wallet side collateral leverage tp
        = Except.ok
            (match open_position_body o wallet side collateral leverage tp with
              | .ok r => r
              | .error err => { success := false, error := some err }) := rfl
    rw [hbase, h]

/-- C8 amended witness: a signer failure inside the try block of an
initialized trader surfaces as a failed `TradeResult`, not as an
exception, for both entry points. -/
theorem exec_boundary_amended_witness :
    execute_signed_transaction true (Except.error "boom") 0 0 1
      = Except.ok { success := false, error := some "boom" } ∧
    open_position true
      { gather := Except.ok (0, 100, []), build_tx := fun _ => Except.ok (),
        sign := Except.error "signer down", send := Except.ok "0xhash" }
      "0xwallet" PositionSide.LONG 10 75 200
      = Except.ok { success := false, error := some "signer down" } :=
  ⟨exec_boundary_amended.2.1 "boom" 0 0 1,
   exec_boundary_amended.2.2.2.2
     { gather := Except.ok (0, 100, []), build_tx := fun _ => Except.ok (),
       sign := Except.error "signer down", send := Except.ok "0xhash" }
     "0xwallet" PositionSide.LONG 10 75 200 "signer down" rfl⟩

/-- C9 counterexample: an execute-trade request whose trade execution
fails with a `TradeResult(success=False)` raises HTTPException 400
through the `except HTTPException: raise` clause, and the cached trader
context is NOT removed — the eviction at main.py lines 368-376 runs only
in the `except Exception` clause. -/
theorem cache_eviction_counterexample :
    (execute_trade_cache [("u", "w")] ("u", "w")
        (ExecOutcome.result { success := false, error := some "boom" })).2
      = [("u", "w")] ∧
    (execute_trade_cache [("u", "w")] ("u", "w")
        (ExecOutcome.result { success := false, error := some "boom" })).1
      = Except.error { status_code := 400, detail := "boom" } :=
  ⟨rfl, rfl⟩

lemma execute_trade_cache_result_fail (cache : List CacheKey) (key : CacheKey)
    (r : TradeResult) (h : r.success = false) :
    execute_trade_cache cache key (ExecOutcome.result r)
      = (Except.error { status_code := 400, detail := failDetail r },
         if key ∈ cache then cache else key :: cache) := by
  have hbase : execute_trade_cache cache key (ExecOutcome.result r)
      = (if r.success then
          (Except.ok r.message, if key ∈ cache then cache else key :: cache)
         else
          (Except.error { status_code := 400, detail := failDetail r },
           if key ∈ cache then cache else key :: cache)) := rfl
  rw [hbase, h]
  simp

/-- C9 amended: the cached trader context is evicted exactly when the
handler body raises a non-HTTPException exception (the HTTP-500 path); a
failure reported as an unsuccessful `TradeResult` returns HTTP 400 via
the re-raising `except HTTPException` clause and leaves the cached
context in place. -/
theorem cache_eviction_amended :
    (∀ (cache : List CacheKey) (key : CacheKey) (e : String),
        key ∉ (execute_trade_cache cache key (ExecOutcome.exception e)).2 ∧
        (execute_trade_cache cache key (ExecOutcome.exception e)).1
          = Except.error { status_code := 500, detail := e }) ∧
    (∀ (cache : List CacheKey) (key : CacheKey) (r : TradeResult),
        r.success = false →
        key ∈ (execute_trade_cache cache key (ExecOutcome.result r)).2 ∧
        ∃ d, (execute_trade_cache cache key (ExecOutcome.result r)).1
          = Except.error { status_code := 400, detail := d }) := by
  constructor
  · intro cache key e
    constructor
    · intro hmem
      rw [show (execute_trade_cache cache key (ExecOutcome.exception e)).2
            = (if key ∈ cache then cache else key :: cache).filter
                (fun k => k ≠ key) from rfl] at hmem
      rw [List.mem_filter] at hmem
      have h2 := hmem.2
      simp at h2
    · rfl
  · intro cache key r h
    rw [execute_trade_cache_result_fail cache key r h]
    constructor
    · by_cases hc : key ∈ cache
      · simp [hc]
      · simp [hc]
    · exact ⟨_, rfl⟩

/-- C9 amended witness: for the concrete failed result, the key stays in
the cache and the response is an HTTP 400 error. -/
theorem cache_eviction_amended_witness :
    ("u", "w") ∈ (execute_trade_cache [("u", "w")] ("u", "w")
        (ExecOutcome.result { success := false, error := some "boom" })).2 ∧
    ("x", "y") ∉ (execute_trade_cache [("x", "y")] ("x", "y")
        (ExecOutcome.exception "net down")).2 :=
  ⟨(cache_eviction_amended.2 [("u", "w")] ("u", "w")
      { success := false, error := some "boom" } rfl).1,
   (cache_eviction_amended.1 [("x", "y")] ("x", "y") "net down").1⟩

/-- C10: the direction string is compared for exact equality with the
lowercase "long"; every other string — including "Long", "LONG",
"short" or any typo — is treated as a Short position, and the total
parse function raises no validation error. -/
theorem direction_parse_correct :
    parse_direction "long" = PositionSide.LONG ∧
    (∀ s, s ≠ "long" → parse_direction s = PositionSide.SHORT) ∧
    parse_direction "Long" = PositionSide.SHORT ∧
    parse_direction "LONG" = PositionSide.SHORT ∧
    parse_direction "short" = PositionSide.SHORT := by
  refine ⟨by decide, ?_, by decide, by decide, by decide⟩
  intro s h
  simp [parse_direction, h]

/-- C10 witness: a typo string is parsed as Short via the general clause
of `direction_parse_correct`. -/
theorem direction_parse_correct_witness :
    parse_direction "lnog" = PositionSide.SHORT :=
  direction_parse_correct.2.1 "lnog" (by decide)
